import Mathlib

/-!
Shallow embedding of the UWB racing tracker core (src/network.py and
src/matplotlib_renderer.py) and verification of its specification claims.

Modelling conventions:
* Wall-clock time is a natural number of milliseconds, so Python's
  `time.time() - x >= 1.0` becomes `1000 ≤ t - x` and the default 2-second
  connectivity timeout is `2000`.
* Float values carried by packets and tag positions are modelled as rationals,
  rssi readings as integers (the spec types them as floats resp. integers).
* A received datagram is modelled after UTF-8/JSON decoding: `malformed`
  stands for any payload on which `data.decode`, `json.loads` or the field
  accesses raise (all such exceptions are swallowed by the bare `except`
  clauses in `_receive_loop` / `_process_data`); `ok p` stands for a decoded
  JSON object with its optional typed fields.
* The embedded functions are total: totality models the fact that the
  ingestion path never lets an exception propagate.
-/

namespace XRace

/-- Per-tag mutable telemetry state (the spec's TagStore row). The fields are
those read and written by `network.py` and `matplotlib_renderer.py`. -/
structure Tag where
  x : ℚ
  y : ℚ
  range_list : List ℚ
  rssi_list : List ℤ
  quality : String
  anchor_count : ℕ
  status : Bool
  last_update : ℕ
  history : List (ℚ × ℚ × ℕ)
deriving DecidableEq, Repr

/-- A decoded telemetry record: the three fields `_process_data` reads with
`data.get`, each possibly absent. -/
structure Packet where
  id : Option ℤ
  range : Option (List ℚ)
  rssi : Option (List ℤ)
deriving DecidableEq, Repr

/-- A received datagram after the decode stage (see module comment). -/
inductive Datagram where
  | malformed
  | ok (p : Packet)
deriving DecidableEq, Repr

/-- Modelled from the spec: the Tag entity class (holding `set_location`) is
not under src/. Per the spec the history is bounded with oldest entries
evicted; the cap value is not fixed by the spec and no claim depends on it. -/
def historyCap : ℕ := 100

/-- Modelled from the spec: `Tag.set_location` is not under src/. Per the
spec, a position update sets the tag's current position, records the
last-update timestamp, and appends an (x, y, timestamp) sample to the bounded
time-ordered history (oldest entries evicted). -/
def set_location (tag : Tag) (x y : ℚ) (now : ℕ) : Tag :=
  let h := tag.history ++ [(x, y, now)]
  { tag with x := x, y := y, last_update := now,
             history := h.drop (h.length - historyCap) }

/-- The hardcoded placeholder position table of `_process_data`
(network.py line 59): `positions = {0: (50, 50), 1: (100, 100), 2: (150, 150)}`. -/
def positions (tag_id : ℤ) : Option (ℚ × ℚ) :=
  if tag_id = 0 then some (50, 50)
  else if tag_id = 1 then some (100, 100)
  else if tag_id = 2 then some (150, 150)
  else none

/-- The per-tag mutation performed by `_process_data` for an in-range id
(network.py lines 52-62): assign range list (defaulting to `[]`), rssi list
(defaulting to eight zeros), quality `"good"`, anchor count 4; then, for ids
0, 1, 2 only, the placeholder position and status `True`. -/
def updateTag (tag : Tag) (tag_id : ℤ) (p : Packet) (now : ℕ) : Tag :=
  let t4 : Tag :=
    { tag with
      range_list := p.range.getD [],
      rssi_list := p.rssi.getD (List.replicate 8 0),
      quality := "good",
      anchor_count := 4 }
  match positions tag_id with
  | some pos => { set_location t4 pos.1 pos.2 now with status := true }
  | none => t4

/-- The sequence of intermediate tag states produced by the six separate
field assignments of `_process_data` (network.py lines 53-62, in program
order: range_list, rssi_list, quality, anchor_count, set_location, status).
`network.py` takes no lock, so a concurrent reader's snapshot may be any
element of this list (each single Python assignment is atomic under the GIL,
the sequence is not). -/
def processMicroStates (tag : Tag) (tag_id : ℤ) (p : Packet) (now : ℕ) :
    List Tag :=
  let t1 : Tag := { tag with range_list := p.range.getD [] }
  let t2 : Tag := { t1 with rssi_list := p.rssi.getD (List.replicate 8 0) }
  let t3 : Tag := { t2 with quality := "good" }
  let t4 : Tag := { t3 with anchor_count := 4 }
  match positions tag_id with
  | some pos =>
    let t5 := set_location t4 pos.1 pos.2 now
    let t6 : Tag := { t5 with status := true }
    [t1, t2, t3, t4, t5, t6]
  | none => [t1, t2, t3, t4]

/-- `UDPReceiver._process_data` (network.py lines 46-67). It receives the
decoded message, reads `id` with default `-1`, and mutates the addressed tag
only when `0 <= tag_id < len(self.tags)`. The error counter is threaded
through explicitly: the bare `except: pass` neither raises nor touches it.
The out-of-bounds match arm mirrors the fact that an IndexError would be
swallowed leaving the table unchanged. -/
def process_data (d : Datagram) (tags : List Tag) (now : ℕ)
    (error_count : ℕ) : List Tag × ℕ :=
  match d with
  | .malformed => (tags, error_count)
  | .ok p =>
    let tag_id := p.id.getD (-1)
    if 0 ≤ tag_id ∧ tag_id < (tags.length : ℤ) then
      match tags[tag_id.toNat]? with
      | some tag => (tags.set tag_id.toNat (updateTag tag tag_id p now),
                     error_count)
      | none => (tags, error_count)
    else (tags, error_count)

/-- The mutable statistics and table state of `UDPReceiver`
(network.py lines 15-20 plus the tag table). -/
structure ReceiverState where
  tags : List Tag
  packets_received : ℕ
  packets_per_second : ℕ
  last_packet_time : ℕ
  last_second : ℕ
  second_counter : ℕ
  error_count : ℕ
deriving DecidableEq, Repr

/-- `UDPReceiver.__init__` statistics initialisation (network.py lines
15-20): counters at zero, `last_packet_time = 0`, `last_second` set to the
construction time. -/
def initState (t0 : ℕ) (tags : List Tag) : ReceiverState :=
  { tags := tags
    packets_received := 0
    packets_per_second := 0
    last_packet_time := 0
    last_second := t0
    second_counter := 0
    error_count := 0 }

/-- One successful `recvfrom` iteration of `_receive_loop`
(network.py lines 32-40), at time `t` (milliseconds), with payload decoding
to `d`: increment the total and current-second counters, record the arrival
time, snapshot `packets_per_second` once at least one second has elapsed
since the previous snapshot, then run `_process_data`. All of this happens
before (and regardless of) payload validity. -/
def receive_step (s : ReceiverState) (t : ℕ) (d : Datagram) : ReceiverState :=
  let s1 : ReceiverState :=
    { s with packets_received := s.packets_received + 1,
             second_counter := s.second_counter + 1,
             last_packet_time := t }
  let s2 : ReceiverState :=
    if 1000 ≤ (t : ℤ) - (s1.last_second : ℤ) then
      { s1 with packets_per_second := s1.second_counter,
                second_counter := 0,
                last_second := t }
    else s1
  let r := process_data d s2.tags t s2.error_count
  { s2 with tags := r.1, error_count := r.2 }

/-- A datagram arrival event: wall-clock time and decoded payload. -/
structure Event where
  time : ℕ
  msg : Datagram
deriving DecidableEq, Repr

/-- Run the receive loop from a freshly constructed receiver over a sequence
of datagram arrivals. -/
def run (t0 : ℕ) (tags0 : List Tag) (evs : List Event) : ReceiverState :=
  evs.foldl (fun s e => receive_step s e.time e.msg) (initState t0 tags0)

/-- `UDPReceiver.is_connected` (network.py lines 69-70):
`time.time() - self.last_packet_time < timeout`. -/
def is_connected (s : ReceiverState) (t : ℕ) (timeout : ℕ) : Bool :=
  (t : ℤ) - (s.last_packet_time : ℤ) < (timeout : ℤ)

/-- The arrival time of the last datagram of a trace (0 when there is none,
matching the initial `last_packet_time`). Specification-side
characterisation used to state what `is_connected` actually tracks. -/
def lastArrivalTime : List Event → ℕ
  | [] => 0
  | [e] => e.time
  | _ :: e :: es => lastArrivalTime (e :: es)

/-- Specification-side characterisation of a "valid" datagram for a table of
`n` tags: it decoded and its identity addresses the table, so processing it
mutates a tag. -/
def isValidDatagram (n : ℕ) : Datagram → Bool
  | .malformed => false
  | .ok p => decide (0 ≤ p.id.getD (-1) ∧ p.id.getD (-1) < (n : ℤ))

/-- A fresh tag row as the spec describes the table at startup: no position,
no measurements, quality `"unknown"`, inactive. -/
def defaultTag : Tag :=
  { x := 0, y := 0, range_list := [], rssi_list := List.replicate 8 0,
    quality := "unknown", anchor_count := 0, status := false,
    last_update := 0, history := [] }

/-- The scale parameters of `MatplotlibRenderer.__init__`
(matplotlib_renderer.py lines 26-28). -/
structure MatplotlibRenderer where
  cm2p : ℚ
  x_offset : ℚ
  y_offset : ℚ
deriving DecidableEq, Repr

/-- `MatplotlibRenderer.cm_to_pixels` (matplotlib_renderer.py lines 48-52).
`SCREEN_Y` is a configuration constant imported from `config`, which is not
under src/, so it is passed as a parameter. -/
def cm_to_pixels (r : MatplotlibRenderer) (SCREEN_Y : ℚ) (x_cm y_cm : ℚ) :
    ℚ × ℚ :=
  (x_cm * r.cm2p + r.x_offset, SCREEN_Y - (y_cm * r.cm2p + r.y_offset))

/-- Modelled from the spec: `Tag.is_active` belongs to the tag entity class,
which is not under src/. Per the spec a tag is active when its last-update
timestamp is within the given timeout of the current time. -/
def is_active (tag : Tag) (now : ℕ) (timeout : ℕ) : Bool :=
  (now : ℤ) - (tag.last_update : ℤ) < (timeout : ℤ)

/-- The tag-selection loop of `MatplotlibRenderer.render_frame`
(matplotlib_renderer.py lines 269-275): iterate the table in order and draw
exactly those tags with `tag.status and tag.is_active(TAG_TIMEOUT)`. The
resulting list is the sequence of tags drawn in that frame, in draw order. -/
def drawn_tags (tags : List Tag) (now : ℕ) (timeout : ℕ) : List Tag :=
  tags.filter (fun tag => tag.status && is_active tag now timeout)

/-- A tag row that the compositor considers active at time 150 with the
default 2-second timeout: status raised, recently updated. -/
def activeTag : Tag :=
  { defaultTag with status := true, last_update := 100 }

/- ------------------------------------------------------------------ -/
/- Helper lemmas shared by the claim theorems.                         -/
/- ------------------------------------------------------------------ -/

theorem updateTag_quality (tag : Tag) (tag_id : ℤ) (p : Packet) (now : ℕ) :
    (updateTag tag tag_id p now).quality = "good" := by
  unfold updateTag
  split <;> simp [set_location]

theorem updateTag_anchor_count (tag : Tag) (tag_id : ℤ) (p : Packet)
    (now : ℕ) : (updateTag tag tag_id p now).anchor_count = 4 := by
  unfold updateTag
  split <;> simp [set_location]

theorem updateTag_range_list (tag : Tag) (tag_id : ℤ) (p : Packet) (now : ℕ) :
    (updateTag tag tag_id p now).range_list = p.range.getD [] := by
  unfold updateTag
  split <;> simp [set_location]

theorem updateTag_rssi_list (tag : Tag) (tag_id : ℤ) (p : Packet) (now : ℕ) :
    (updateTag tag tag_id p now).rssi_list =
      p.rssi.getD (List.replicate 8 0) := by
  unfold updateTag
  split <;> simp [set_location]

theorem process_data_ok_valid (p : Packet) (tags : List Tag) (now ec : ℕ)
    (h0 : 0 ≤ p.id.getD (-1)) (h1 : (p.id.getD (-1)).toNat < tags.length) :
    process_data (.ok p) tags now ec =
      (tags.set (p.id.getD (-1)).toNat
        (updateTag (tags.get ⟨(p.id.getD (-1)).toNat, h1⟩)
          (p.id.getD (-1)) p now), ec) := by
  have hlt : p.id.getD (-1) < (tags.length : ℤ) := by omega
  simp only [process_data]
  rw [if_pos ⟨h0, hlt⟩, List.getElem?_eq_getElem h1]
  simp

theorem process_data_entry (p : Packet) (tags : List Tag) (now ec : ℕ)
    (h0 : 0 ≤ p.id.getD (-1)) (h1 : (p.id.getD (-1)).toNat < tags.length) :
    ((process_data (.ok p) tags now ec).1)[(p.id.getD (-1)).toNat]? =
      some (updateTag (tags.get ⟨(p.id.getD (-1)).toNat, h1⟩)
        (p.id.getD (-1)) p now) := by
  rw [process_data_ok_valid p tags now ec h0 h1]
  simp [List.getElem?_set, h1]

theorem positions_eq_none (tag_id : ℤ) (h0 : tag_id ≠ 0) (h1 : tag_id ≠ 1)
    (h2 : tag_id ≠ 2) : positions tag_id = none := by
  simp [positions, h0, h1, h2]

/- ------------------------------------------------------------------ -/
/- Claim theorems.                                                     -/
/- ------------------------------------------------------------------ -/

/-- C1: a datagram whose payload fails to decode produces no tag mutation and
no exception, but the error counter is NOT incremented: nothing in
network.py ever writes `error_count` after its initialisation, the bare
`except` clauses just drop the packet. This refutes the claim's (and the
spec's) assertion that decode failure increments `error_count`. -/
theorem C1_error_counter_never_incremented (s : ReceiverState) (t : ℕ) :
    (receive_step s t Datagram.malformed).error_count = s.error_count ∧
    (receive_step s t Datagram.malformed).tags = s.tags := by
  simp only [receive_step, process_data]
  split <;> exact ⟨rfl, rfl⟩

/-- C5: a decoded packet whose identity (defaulting to -1 when the id field
is missing) lies outside [0, tagCount) leaves the tag table and the error
counter unchanged; totality of `process_data` reflects that no exception
escapes `_process_data`. -/
theorem C5_out_of_range_identity_drops_packet (p : Packet) (tags : List Tag)
    (now ec : ℕ)
    (h : p.id.getD (-1) < 0 ∨ (tags.length : ℤ) ≤ p.id.getD (-1)) :
    process_data (.ok p) tags now ec = (tags, ec) := by
  simp only [process_data]
  rw [if_neg]
  omega

/-- Witness for C5 at a packet with a missing id field (identity defaults to
-1) on a one-entry table. -/
theorem C5_out_of_range_identity_drops_packet_witness :
    process_data (.ok ⟨none, none, none⟩) [defaultTag] 5 0 =
      ([defaultTag], 0) :=
  C5_out_of_range_identity_drops_packet ⟨none, none, none⟩ [defaultTag] 5 0
    (Or.inl (by decide))

/-- C9: every valid packet sets the addressed tag's quality to "good" and
its anchor count to 4, whatever the packet's range and rssi contents are
(both are quantified over, including the empty range list): the two values
are hardcoded at network.py lines 55-56, not derived from measurements. -/
theorem C9_quality_and_anchor_count_hardcoded (p : Packet) (tags : List Tag)
    (now ec : ℕ) (h0 : 0 ≤ p.id.getD (-1))
    (h1 : (p.id.getD (-1)).toNat < tags.length) :
    ∃ tg : Tag,
      ((process_data (.ok p) tags now ec).1)[(p.id.getD (-1)).toNat]? =
        some tg ∧
      tg.quality = "good" ∧ tg.anchor_count = 4 :=
  ⟨_, process_data_entry p tags now ec h0 h1,
    updateTag_quality _ _ _ _, updateTag_anchor_count _ _ _ _⟩

/-- Witness for C9 at a packet with identity 0 and an empty range list. -/
theorem C9_quality_and_anchor_count_hardcoded_witness :
    ∃ tg : Tag,
      ((process_data (.ok ⟨some 0, some [], none⟩) [defaultTag] 3 0).1)[0]? =
        some tg ∧
      tg.quality = "good" ∧ tg.anchor_count = 4 :=
  C9_quality_and_anchor_count_hardcoded ⟨some 0, some [], none⟩ [defaultTag]
    3 0 (by decide) (by decide)

/-- C6: processing `{"id":1,"range":[10,20,30,40],"rssi":[1,2,3,4]}` on a
table with at least two tags leaves tag 1 with quality "good", anchor count
4, range list [10,20,30,40] and rssi list [1,2,3,4]; and any valid packet
carrying no rssi field sets the addressed tag's rssi list to eight zeros. -/
theorem C6_scenario_and_rssi_default (tags : List Tag) (now ec : ℕ)
    (h2 : 1 < tags.length) :
    (∃ tg : Tag,
      ((process_data
          (.ok ⟨some 1, some [10, 20, 30, 40], some [1, 2, 3, 4]⟩)
          tags now ec).1)[1]? = some tg ∧
      tg.quality = "good" ∧ tg.anchor_count = 4 ∧
      tg.range_list = [10, 20, 30, 40] ∧ tg.rssi_list = [1, 2, 3, 4]) ∧
    (∀ (p : Packet) (tags2 : List Tag) (now2 ec2 : ℕ),
      p.rssi = none → 0 ≤ p.id.getD (-1) →
      (p.id.getD (-1)).toNat < tags2.length →
      ∃ tg : Tag,
        ((process_data (.ok p) tags2 now2 ec2).1)[(p.id.getD (-1)).toNat]? =
          some tg ∧
        tg.rssi_list = List.replicate 8 0) := by
  constructor
  · have h1 : ((⟨some 1, some [10, 20, 30, 40], some [1, 2, 3, 4]⟩ :
        Packet).id.getD (-1)).toNat < tags.length := by
      show (1 : ℤ).toNat < tags.length
      omega
    refine ⟨_, process_data_entry _ tags now ec (by decide) h1, ?_, ?_, ?_, ?_⟩
    · exact updateTag_quality _ _ _ _
    · exact updateTag_anchor_count _ _ _ _
    · rw [updateTag_range_list]
      rfl
    · rw [updateTag_rssi_list]
      rfl
  · intro p tags2 now2 ec2 hrssi h0 h1
    refine ⟨_, process_data_entry p tags2 now2 ec2 h0 h1, ?_⟩
    rw [updateTag_rssi_list, hrssi]
    rfl

/-- Witness for C6 on a two-tag table, with the rssi-default part
instantiated at a packet with identity 0 and no rssi field. -/
theorem C6_scenario_and_rssi_default_witness :
    (∃ tg : Tag,
      ((process_data
          (.ok ⟨some 1, some [10, 20, 30, 40], some [1, 2, 3, 4]⟩)
          [defaultTag, defaultTag] 7 0).1)[1]? = some tg ∧
      tg.quality = "good" ∧ tg.anchor_count = 4 ∧
      tg.range_list = [10, 20, 30, 40] ∧ tg.rssi_list = [1, 2, 3, 4]) ∧
    (∃ tg : Tag,
      ((process_data (.ok ⟨some 0, none, none⟩) [defaultTag] 9 0).1)[0]? =
        some tg ∧
      tg.rssi_list = List.replicate 8 0) :=
  ⟨(C6_scenario_and_rssi_default [defaultTag, defaultTag] 7 0 (by decide)).1,
   (C6_scenario_and_rssi_default [defaultTag, defaultTag] 7 0 (by decide)).2
     ⟨some 0, none, none⟩ [defaultTag] 9 0 rfl (by decide) (by decide)⟩

/-- C10: a valid packet whose identity is not 0, 1 or 2 changes only the
addressed tag's range list, rssi list, quality and anchor count (the record
expression keeps position, history, status and last-update from the old
row); identities 0, 1, 2 are assigned the fixed placeholder positions
(50,50), (100,100), (150,150) and get status true. -/
theorem C10_update_footprint (p : Packet) (tags : List Tag) (now ec : ℕ)
    (h0 : 0 ≤ p.id.getD (-1))
    (h1 : (p.id.getD (-1)).toNat < tags.length) :
    (p.id.getD (-1) ≠ 0 → p.id.getD (-1) ≠ 1 → p.id.getD (-1) ≠ 2 →
      ((process_data (.ok p) tags now ec).1)[(p.id.getD (-1)).toNat]? =
        some { tags.get ⟨(p.id.getD (-1)).toNat, h1⟩ with
               range_list := p.range.getD [],
               rssi_list := p.rssi.getD (List.replicate 8 0),
               quality := "good", anchor_count := 4 }) ∧
    ((p.id.getD (-1) = 0 ∨ p.id.getD (-1) = 1 ∨ p.id.getD (-1) = 2) →
      ∃ tg : Tag,
        ((process_data (.ok p) tags now ec).1)[(p.id.getD (-1)).toNat]? =
          some tg ∧
        tg.status = true ∧
        (p.id.getD (-1) = 0 → tg.x = 50 ∧ tg.y = 50) ∧
        (p.id.getD (-1) = 1 → tg.x = 100 ∧ tg.y = 100) ∧
        (p.id.getD (-1) = 2 → tg.x = 150 ∧ tg.y = 150)) := by
  constructor
  · intro hn0 hn1 hn2
    rw [process_data_entry p tags now ec h0 h1]
    unfold updateTag
    rw [positions_eq_none _ hn0 hn1 hn2]
  · intro hcase
    refine ⟨_, process_data_entry p tags now ec h0 h1, ?_⟩
    rcases hcase with h | h | h <;>
      simp [h, updateTag, positions, set_location]

/-- Witness for C10: identity 3 on a four-tag table keeps the default
position, history and status; identity 1 on a two-tag table is moved to
(100,100) with status true. -/
theorem C10_update_footprint_witness :
    ((process_data (.ok ⟨some 3, none, none⟩)
        [defaultTag, defaultTag, defaultTag, defaultTag] 2 0).1)[3]? =
      some { defaultTag with
             range_list := [],
             rssi_list := List.replicate 8 0,
             quality := "good", anchor_count := 4 } ∧
    (∃ tg : Tag,
      ((process_data (.ok ⟨some 1, none, none⟩)
          [defaultTag, defaultTag] 2 0).1)[1]? = some tg ∧
      tg.status = true ∧
      ((1 : ℤ) = 0 → tg.x = 50 ∧ tg.y = 50) ∧
      ((1 : ℤ) = 1 → tg.x = 100 ∧ tg.y = 100) ∧
      ((1 : ℤ) = 2 → tg.x = 150 ∧ tg.y = 150)) :=
  ⟨(C10_update_footprint ⟨some 3, none, none⟩
      [defaultTag, defaultTag, defaultTag, defaultTag] 2 0
      (by decide) (by decide)).1 (by decide) (by decide) (by decide),
   (C10_update_footprint ⟨some 1, none, none⟩ [defaultTag, defaultTag] 2 0
      (by decide) (by decide)).2 (Or.inr (Or.inl rfl))⟩

/-- The receive loop records the arrival time of every datagram, before any
validation (network.py line 35). -/
theorem receive_step_last_packet_time (s : ReceiverState) (t : ℕ)
    (d : Datagram) : (receive_step s t d).last_packet_time = t := by
  simp only [receive_step]
  split <;> rfl

theorem foldl_last_packet_time (evs : List Event) :
    ∀ s : ReceiverState,
      (evs.foldl (fun s e => receive_step s e.time e.msg) s).last_packet_time
        = match evs with
          | [] => s.last_packet_time
          | _ :: _ => lastArrivalTime evs := by
  induction evs with
  | nil => intro s; rfl
  | cons e es ih =>
    intro s
    cases es with
    | nil =>
      simpa [lastArrivalTime] using
        receive_step_last_packet_time s e.time e.msg
    | cons f fs =>
      simpa [lastArrivalTime] using ih (receive_step s e.time e.msg)

theorem run_last_packet_time (t0 : ℕ) (tags0 : List Tag) (evs : List Event) :
    (run t0 tags0 evs).last_packet_time = lastArrivalTime evs := by
  have h := foldl_last_packet_time evs (initState t0 tags0)
  cases evs with
  | nil => rfl
  | cons e es => exact h

/-- C2 counterexample: after a single malformed datagram (which mutates no
tag, as the unchanged table shows, and is not a valid datagram),
`is_connected` is already true 500 ms later — refuting the claim that it is
false when only malformed packets arrived in the window. -/
theorem C2_counterexample :
    is_connected (run 999000 [defaultTag] [⟨1000000, Datagram.malformed⟩])
        1000500 2000 = true ∧
    (run 999000 [defaultTag] [⟨1000000, Datagram.malformed⟩]).tags =
      [defaultTag] ∧
    isValidDatagram 1 Datagram.malformed = false :=
  ⟨rfl, rfl, rfl⟩

/-- C2 (amended): `is_connected(timeout)` queried at time t is true iff the
most recent received datagram of any kind (valid, malformed or out of
range) arrived within the timeout before t; with no datagram yet, the
recorded arrival time is 0 (the epoch), so the query is false at any time
at least `timeout` past the epoch. -/
theorem C2_connected_tracks_any_datagram (t0 : ℕ) (tags0 : List Tag)
    (evs : List Event) (t timeout : ℕ) :
    is_connected (run t0 tags0 evs) t timeout = true ↔
      (t : ℤ) - (lastArrivalTime evs : ℤ) < (timeout : ℤ) := by
  rw [is_connected, run_last_packet_time]
  simp

/-- C3 counterexample: from a receiver constructed at t₀ = 1000000 ms, two
malformed datagrams arrive at 1000500 and 1001100; right after the second
arrival (T = 1001100) the statistic reads 2, yet the number of valid
datagrams in [T−1s, T) is 0 (no tag was ever mutated and neither datagram
is valid) — and even counting all datagrams the window holds only 1. -/
theorem C3_counterexample :
    (run 1000000 [defaultTag]
        [⟨1000500, Datagram.malformed⟩, ⟨1001100, Datagram.malformed⟩]
      ).packets_per_second = 2 ∧
    (run 1000000 [defaultTag]
        [⟨1000500, Datagram.malformed⟩, ⟨1001100, Datagram.malformed⟩]
      ).tags = [defaultTag] ∧
    isValidDatagram 1 Datagram.malformed = false :=
  ⟨rfl, rfl, rfl⟩

/-- C3 (amended): `packets_per_second` is a snapshot updated only on
datagram arrival. When a datagram (valid or not) arrives at least one
second after the last snapshot, the statistic becomes the count of all
datagrams received since that snapshot, this one included, and the counter
and snapshot time reset; otherwise the previous snapshot value is kept and
the counter grows — so the statistic counts all datagrams over an
inter-snapshot interval, not valid datagrams over the exact last second. -/
theorem C3_rate_is_snapshot_of_all_datagrams (s : ReceiverState) (t : ℕ)
    (d : Datagram) :
    (1000 ≤ (t : ℤ) - (s.last_second : ℤ) →
      (receive_step s t d).packets_per_second = s.second_counter + 1 ∧
      (receive_step s t d).second_counter = 0 ∧
      (receive_step s t d).last_second = t) ∧
    ((t : ℤ) - (s.last_second : ℤ) < 1000 →
      (receive_step s t d).packets_per_second = s.packets_per_second ∧
      (receive_step s t d).second_counter = s.second_counter + 1 ∧
      (receive_step s t d).last_second = s.last_second) := by
  constructor <;> intro h <;> simp only [receive_step]
  · rw [if_pos h]
    exact ⟨rfl, rfl, rfl⟩
  · rw [if_neg (by omega)]
    exact ⟨rfl, rfl, rfl⟩

/-- Witness for C3 (amended): a snapshot fires 1500 ms after construction
and does not fire 500 ms after construction. -/
theorem C3_rate_is_snapshot_of_all_datagrams_witness :
    (receive_step (initState 0 []) 1500 Datagram.malformed
      ).packets_per_second = 0 + 1 ∧
    (receive_step (initState 2000 []) 2500 Datagram.malformed
      ).packets_per_second = (initState 2000 []).packets_per_second :=
  ⟨((C3_rate_is_snapshot_of_all_datagrams (initState 0 []) 1500
      Datagram.malformed).1 (by decide)).1,
   ((C3_rate_is_snapshot_of_all_datagrams (initState 2000 []) 2500
      Datagram.malformed).2 (by decide)).1⟩

/-- C4: the per-tag update is not atomic. `network.py` takes no lock; the
micro-state sequence of its six field assignments contains an intermediate
state that already holds the packet's range list while still holding the
stale quality — a state equal to neither the pre-update nor the post-update
row, i.e. a torn update a concurrent reader may observe. -/
theorem C4_torn_update_observable :
    ∃ mid ∈ processMicroStates defaultTag 1 ⟨some 1, some [10], some []⟩ 5,
      mid.range_list = [10] ∧ mid.quality = "unknown" ∧
      mid ≠ defaultTag ∧
      mid ≠ updateTag defaultTag 1 ⟨some 1, some [10], some []⟩ 5 := by
  decide

/-- C7: the compositor's tag-selection loop draws exactly the tags whose
status flag is true and whose last update is within the timeout; a tag
failing either condition is never in the drawn sequence even though it
stays in the table, and the drawn sequence is a sublist of the table, i.e.
tags are processed in stable table order. -/
theorem C7_only_active_tags_drawn (tags : List Tag) (now timeout : ℕ) :
    (∀ tag ∈ drawn_tags tags now timeout,
        tag.status = true ∧ is_active tag now timeout = true) ∧
    (∀ tag ∈ tags,
        (tag.status = false ∨ is_active tag now timeout = false) →
        tag ∉ drawn_tags tags now timeout) ∧
    List.Sublist (drawn_tags tags now timeout) tags := by
  refine ⟨?_, ?_, List.filter_sublist tags⟩
  · intro tag h
    rw [drawn_tags, List.mem_filter, Bool.and_eq_true] at h
    exact h.2
  · intro tag _ hbad hmem
    rw [drawn_tags, List.mem_filter, Bool.and_eq_true] at hmem
    rcases hbad with hb | hb
    · rw [hmem.2.1] at hb
      cases hb
    · rw [hmem.2.2] at hb
      cases hb

/-- Witness for C7: on a two-tag table at time 150 with timeout 2000, the
inactive default tag is not drawn and the drawn sequence is a sublist of
the table. -/
theorem C7_only_active_tags_drawn_witness :
    defaultTag ∉ drawn_tags [activeTag, defaultTag] 150 2000 ∧
    List.Sublist (drawn_tags [activeTag, defaultTag] 150 2000)
      [activeTag, defaultTag] :=
  ⟨(C7_only_active_tags_drawn [activeTag, defaultTag] 150 2000).2.1
      defaultTag (by decide) (Or.inl rfl),
   (C7_only_active_tags_drawn [activeTag, defaultTag] 150 2000).2.2⟩

/-- C8: `cm_to_pixels` computes pixel_x = x_cm·scale + x_offset and
pixel_y = frame_height − (y_cm·scale + y_offset); with a positive scale
factor, pixel_y is strictly decreasing in y_cm and pixel_x strictly
increasing in x_cm, so the relative order of distinct world points is
preserved and vertically flipped. -/
theorem C8_transform_formula_and_monotone (r : MatplotlibRenderer)
    (SY : ℚ) (h : 0 < r.cm2p) (x1 y1 x2 y2 : ℚ) :
    cm_to_pixels r SY x1 y1 =
      (x1 * r.cm2p + r.x_offset, SY - (y1 * r.cm2p + r.y_offset)) ∧
    (y1 < y2 → (cm_to_pixels r SY x2 y2).2 < (cm_to_pixels r SY x1 y1).2) ∧
    (x1 < x2 → (cm_to_pixels r SY x1 y1).1 < (cm_to_pixels r SY x2 y2).1) := by
  refine ⟨rfl, ?_, ?_⟩ <;> intro hlt <;> simp only [cm_to_pixels] <;>
    have hm := mul_lt_mul_of_pos_right hlt h <;> linarith

/-- Witness for C8 at scale 2, offsets (3, 4), frame height 900, world
points (0,0) and (1,1). -/
theorem C8_transform_formula_and_monotone_witness :
    cm_to_pixels ⟨2, 3, 4⟩ 900 0 0 = (0 * 2 + 3, 900 - (0 * 2 + 4)) ∧
    (cm_to_pixels ⟨2, 3, 4⟩ 900 1 1).2 < (cm_to_pixels ⟨2, 3, 4⟩ 900 0 0).2 ∧
    (cm_to_pixels ⟨2, 3, 4⟩ 900 0 0).1 < (cm_to_pixels ⟨2, 3, 4⟩ 900 1 1).1 :=
  ⟨(C8_transform_formula_and_monotone ⟨2, 3, 4⟩ 900 (by norm_num) 0 0 1 1).1,
   (C8_transform_formula_and_monotone ⟨2, 3, 4⟩ 900 (by norm_num) 0 0 1 1).2.1
     (by norm_num),
   (C8_transform_formula_and_monotone ⟨2, 3, 4⟩ 900 (by norm_num) 0 0 1 1).2.2
     (by norm_num)⟩

end XRace
